import Mathlib

/-!
Shallow embedding of the `dataset_construction.providers` package
(`default.py` and `gbif.py`): the `Query` value object, the
`BaseEndpoint` query orchestration (`_execute_query`), the provider
logging sink (`BaseProviderClass.log`), and the concrete GBIF API v1
endpoint family (URL composition, transport classification,
authentication, and the `Maps` placeholder).

Conventions of the embedding:
* Python exceptions are modelled by `Except PyError`;
* the external HTTP transport (`requests.get`) is modelled by a
  `TransportOutcome` oracle naming what the single GET of a call did:
  delivered a `Response`, or failed at transport level;
* `response.json()` is modelled by the `jsonBody : Option Json` field of
  `Response` (`none` means the body is not decodable and `.json()` would
  raise a JSON decode error);
* the provider logging sink (`provider._logger`) is modelled by the list
  of strings a call hands to it, in order;
* Python string representations (`__str__`) are modelled by explicit
  functions mirroring CPython `repr`/`str` output, with the memory
  address of a `requests.auth.HTTPBasicAuth` object elided.
-/

namespace DatasetConstruction

/-- `Query` from `default.py` lines 3-26: an immutable pair of a list of
subendpoint path segments and a parameter mapping.  Parameter values are
modelled after their plain string coercion (the only way the code ever
uses them). -/
structure Query where
  subendpoints : List String
  parameters : List (String × String)

/-- Python `repr` of a string (single-quoted). -/
def pyReprStr (s : String) : String := "'" ++ s ++ "'"

/-- Python `repr` of a list of strings. -/
def pyReprStrList (xs : List String) : String :=
  "[" ++ String.intercalate ", " (xs.map pyReprStr) ++ "]"

/-- Python `repr` of a dict mapping strings to strings. -/
def pyReprStrDict (ps : List (String × String)) : String :=
  "\x7b" ++ String.intercalate ", "
    (ps.map (fun kv => pyReprStr kv.1 ++ ": " ++ pyReprStr kv.2)) ++ "\x7d"

/-- `Query.__str__` (`default.py` lines 22-23): `self.__dict__.__str__()`,
i.e. the Python dict repr of the two attributes in their insertion order
(`subendpoints`, then `parameters`). -/
def Query.str (q : Query) : String :=
  "\x7b'subendpoints': " ++ pyReprStrList q.subendpoints
    ++ ", 'parameters': " ++ pyReprStrDict q.parameters ++ "\x7d"

/-- JSON values, the possible results of `response.json()`. -/
inductive Json where
  | null : Json
  | bool (b : Bool) : Json
  | num (n : Int) : Json
  | str (s : String) : Json
  | arr (xs : List Json) : Json
  | obj (fields : List (String × Json)) : Json

mutual

/-- Python `repr` of a decoded JSON value (dicts/lists with single-quoted
strings, `True`/`False`/`None` atoms). -/
def Json.pyRepr : Json → String
  | .null => "None"
  | .bool true => "True"
  | .bool false => "False"
  | .num n => toString n
  | .str s => pyReprStr s
  | .arr xs => "[" ++ String.intercalate ", " (Json.pyReprList xs) ++ "]"
  | .obj fs => "\x7b" ++ String.intercalate ", " (Json.pyReprFields fs) ++ "\x7d"

/-- `repr` of the elements of a JSON array. -/
def Json.pyReprList : List Json → List String
  | [] => []
  | x :: xs => Json.pyRepr x :: Json.pyReprList xs

/-- `repr` of the `key: value` items of a JSON object. -/
def Json.pyReprFields : List (String × Json) → List String
  | [] => []
  | kv :: fs => (pyReprStr kv.1 ++ ": " ++ Json.pyRepr kv.2) :: Json.pyReprFields fs

end

/-- The transport-level failure modes of `requests.get` that deliver no
HTTP response (`requests.Timeout`, `requests.ConnectionError`, ...). -/
inductive TransportFaultKind where
  | timeout : TransportFaultKind
  | connectionError : TransportFaultKind

/-- `requests.auth.HTTPBasicAuth(user, password)` (either component may
be `None` when the environment variables are unset). -/
structure HTTPBasicAuth where
  user : Option String
  password : Option String

/-- The value in the second slot of an `authenticate()` result: a
credential on success, a diagnostic message on failure.  `_execute_query`
logs this slot and, on success, passes it on to `_execute`. -/
inductive AuthValue where
  | cred (a : HTTPBasicAuth) : AuthValue
  | message (s : String) : AuthValue

/-- The Python exceptions the embedded code can raise. -/
inductive PyError where
  /-- A transport-level `requests` exception propagating out of
  `requests.get` (`gbif.py` line 44 has no surrounding `try`). -/
  | transportFault (k : TransportFaultKind) : PyError
  /-- `response.json()` raised because the body is not valid JSON. -/
  | jsonDecodeError : PyError
  /-- A `TypeError` with the given message. -/
  | typeError (msg : String) : PyError
  /-- `raise Exception(auth_result[1])` on the authentication-failure
  branch of `_execute_query` (`default.py` line 77): the
  `AuthenticationFailed` condition of the design, carrying the
  diagnostic value. -/
  | authenticationFailed (v : AuthValue) : PyError
  /-- `raise NotImplementedError(msg)`. -/
  | notImplementedError (msg : String) : PyError

/-- `__str__` of an `AuthValue` as `provider.log` computes it: a string
message is its own `str`; a `requests.auth.HTTPBasicAuth` prints as an
object header (memory address elided in the model). -/
def AuthValue.str : AuthValue → String
  | .cred _ => "<requests.auth.HTTPBasicAuth object>"
  | .message s => s

/-- The payload slot of an `_execute` result: a decoded JSON body on
HTTP 200, the raw response text otherwise. -/
inductive Payload where
  | json (j : Json) : Payload
  | text (s : String) : Payload

/-- Python `repr` of a payload (used inside the tuple `str` of a logged
result). -/
def Payload.pyRepr : Payload → String
  | .json j => j.pyRepr
  | .text s => pyReprStr s

/-- `str` of the `(success, payload)` tuple returned by `_execute`, as
`provider.log(result)` computes it. -/
def resultStr (b : Bool) (p : Payload) : String :=
  "(" ++ (if b then "True" else "False") ++ ", " ++ p.pyRepr ++ ")"

/-- An HTTP response as `requests.get` delivers it: status code, raw
body text, and the outcome of `response.json()` (`none` when the body is
not decodable JSON). -/
structure Response where
  status_code : Nat
  text : String
  jsonBody : Option Json

/-- What the single `requests.get` of one call did: delivered a
response, or raised a transport-level exception without ever receiving
one. -/
inductive TransportOutcome where
  | response (r : Response) : TransportOutcome
  | fault (k : TransportFaultKind) : TransportOutcome

/-- URL composition of `GBIF_API_V1_Endpoint._execute` (`gbif.py` lines
39-42): join provider base URL, endpoint sub-url and the query's
subendpoints with the endpoint delimiter, join `key=value` pairs with
the arguments delimiter, and glue the two with the endpoint/arguments
delimiter.  Values are inserted by plain string coercion, no
percent-encoding. -/
def composeUrl (providerUrl sub_url : String) (q : Query)
    (endpoint_delimiter arguments_delimiter endpoint_arguments_delimiter : String) :
    String :=
  let base_url := String.intercalate endpoint_delimiter
    ([providerUrl, sub_url] ++ q.subendpoints)
  let arguments := String.intercalate arguments_delimiter
    (q.parameters.map (fun kv => kv.1 ++ "=" ++ kv.2))
  base_url ++ endpoint_arguments_delimiter ++ arguments

/-- The result of one `_execute` invocation: the strings the `_execute`
body itself hands directly to the provider's logging sink, and its
return value (or the exception it raises). -/
def ExecOutcome := List String × Except PyError (Bool × Payload)

/-- An endpoint as `BaseEndpoint._execute_query` consumes it: the
`_do_authentication` flag, the behaviour of `authenticate()` (which may
itself raise, as the base class's does), and the behaviour of
`_execute` on a query and the credential slot it is handed. -/
structure EndpointModel where
  do_authentication : Bool
  authenticateResult : Except PyError (Bool × AuthValue)
  execute : Query → Option AuthValue → ExecOutcome

/-- The observable trace of one `_execute_query` call: whether
`authenticate()` was invoked, the credential slot `_execute` was invoked
with (`none` when `_execute` was never invoked), the strings handed to
the provider's logging sink in order, and the call's return value or
exception. -/
structure CallTrace where
  authCalled : Bool
  executeCalledWith : Option (Option AuthValue)
  sink : List String
  result : Except PyError (Bool × Payload)

/-- The unconditional tail of `_execute_query` (`default.py` lines
81-86): log the query, run `_execute`, and if it returned (rather than
raised) log the result and return it. -/
def runExec (E : EndpointModel) (q : Query) (auth : Option AuthValue)
    (sink0 : List String) (authCalled : Bool) : CallTrace :=
  let sink1 := sink0 ++ [q.str]
  let ex := E.execute q auth
  match ex.2 with
  | .error e =>
      { authCalled := authCalled, executeCalledWith := some auth,
        sink := sink1 ++ ex.1, result := .error e }
  | .ok r =>
      { authCalled := authCalled, executeCalledWith := some auth,
        sink := sink1 ++ ex.1 ++ [resultStr r.1 r.2], result := .ok r }

/-- `BaseEndpoint._execute_query` (`default.py` lines 69-86): if the
`authenticate` flag is set, call `authenticate()`, log `auth_result[1]`
unconditionally, raise on failure (the `AuthenticationFailed`
condition), otherwise carry `auth_result[1]` as the credential; then log
the query, run `_execute`, log and return its result. -/
def execute_query (E : EndpointModel) (q : Query) (authenticate : Bool) :
    CallTrace :=
  if authenticate then
    match E.authenticateResult with
    | .error e =>
        { authCalled := true, executeCalledWith := none,
          sink := [], result := .error e }
    | .ok auth_result =>
        if auth_result.1 then
          runExec E q (some auth_result.2) [auth_result.2.str] true
        else
          { authCalled := true, executeCalledWith := none,
            sink := [auth_result.2.str],
            result := .error (.authenticationFailed auth_result.2) }
  else
    runExec E q none [] false

/-- `BaseEndpoint.query` (`default.py` lines 91-98): construct the query
(done by the caller of this model) and run `_execute_query` with the
endpoint's own `_do_authentication` flag. -/
def queryCall (E : EndpointModel) (q : Query) : CallTrace :=
  execute_query E q E.do_authentication

/-- An object handed to `BaseProviderClass.log`: `strMethod = some s`
models a callable `__str__` returning `s`; `none` models an object whose
`__str__` attribute is not callable. -/
structure Loggable where
  strMethod : Option String

/-- `BaseProviderClass.log` (`default.py` lines 131-145): raise a
`TypeError` when the object has no callable `__str__` (invoking the sink
not at all), otherwise hand `what.__str__()` to the sink and return it.
The first component is the list of sink invocations. -/
def provider_log (what : Loggable) : List String × Except PyError String :=
  match what.strMethod with
  | none =>
      ([], .error (.typeError
        "Cannot log object of this type as it does not have a str method."))
  | some log_str => ([log_str], .ok log_str)

/-- `GBIF_API_V1.authenticate` (`gbif.py` lines 206-207): always
`(True, HTTPBasicAuth(self.user, self.password))`, whatever the stored
credentials are. -/
def GBIF_authenticate (user password : Option String) : Bool × AuthValue :=
  (true, .cred { user := user, password := password })

/-- `GBIF_API_V1_Endpoint._construct_query` (`gbif.py` lines 31-32):
bundle the given subendpoints and parameters into a `Query`. -/
def GBIF_construct_query (subendpoints : List String)
    (parameters : List (String × String)) : Query :=
  { subendpoints := subendpoints, parameters := parameters }

/-- `GBIF_API_V1_Endpoint._execute` (`gbif.py` lines 34-48): `TypeError`
unless the credential slot holds an `HTTPBasicAuth`; compose the URL
with the endpoint's delimiters `/`, `&`, `?`; write `"Querying <url>"`
directly to the provider's sink; issue the single GET (its outcome given
by the `transport` oracle, which absorbs the `timeout` argument);
classify status 200 as `(True, response.json())` and any other status as
`(False, response.text)`; a transport-level exception propagates. -/
def GBIF_execute (providerUrl sub_url : String) (q : Query)
    (authentication : Option AuthValue) (timeout : Option Nat)
    (transport : TransportOutcome) : ExecOutcome :=
  match authentication with
  | some (.cred _) =>
      let url := composeUrl providerUrl sub_url q "/" "&" "?"
      let sink := ["Querying " ++ url]
      match transport with
      | .fault k => (sink, .error (.transportFault k))
      | .response r =>
          if r.status_code = 200 then
            match r.jsonBody with
            | some j => (sink, .ok (true, .json j))
            | none => (sink, .error .jsonDecodeError)
          else
            (sink, .ok (false, .text r.text))
  | _ =>
      ([], .error (.typeError
        "Expected authentication of type HTTPBasicAuth, got another type"))

/-- A `GBIF_API_V1_Endpoint` (`gbif.py` lines 10-48) as an
`EndpointModel`: authentication flag set, `authenticate` delegating to
the provider's always-successful `authenticate`, and `_execute` as
above. -/
def GBIF_endpoint (user password : Option String)
    (providerUrl sub_url : String) (timeout : Option Nat)
    (transport : TransportOutcome) : EndpointModel :=
  { do_authentication := true,
    authenticateResult := .ok (GBIF_authenticate user password),
    execute := fun q auth => GBIF_execute providerUrl sub_url q auth timeout transport }

/-- `GBIF_API_V1_Endpoint.query` (`gbif.py` lines 50-61): construct the
query from subendpoints and parameters and run the base orchestration
with the endpoint's authentication flag. -/
def GBIF_query (user password : Option String) (providerUrl sub_url : String)
    (subendpoints : List String) (parameters : List (String × String))
    (timeout : Option Nat) (transport : TransportOutcome) : CallTrace :=
  queryCall (GBIF_endpoint user password providerUrl sub_url timeout transport)
    (GBIF_construct_query subendpoints parameters)

/-- The body of `GBIF_API_V1_Maps._execute` (`gbif.py` line 155):
`raise NotImplementedError("Maps is not implemented yet.")`, writing
nothing to the sink.  This body only runs when the method is invoked
with no arguments beyond `self`; see `GBIF_Maps_execute` for what the
query pipeline's call site actually does. -/
def GBIF_Maps_execute_body : ExecOutcome :=
  ([], .error (.notImplementedError "Maps is not implemented yet."))

/-- The query pipeline's invocation of `GBIF_API_V1_Maps._execute`:
the method is declared `def _execute(self):` (`gbif.py` line 154), but
`_execute_query` calls it as `self._execute(query, auth, **kwargs)`
(`default.py` line 83, with `kwargs = \x7b"timeout": ...\x7d` from
`gbif.py` line 61), so Python's argument binding raises a `TypeError`
for the signature mismatch before the body ever runs (exact CPython
message wording elided); nothing is written to the sink and the
`NotImplementedError` of `GBIF_Maps_execute_body` is unreachable this
way. -/
def GBIF_Maps_execute : ExecOutcome :=
  ([], .error (.typeError
    "_execute() takes 1 positional argument but 3 were given"))

/-- `GBIF_API_V1_Maps` (`gbif.py` lines 124-155) as an `EndpointModel`:
constructible like any `GBIF_API_V1_Endpoint` (authentication flag set,
provider authentication); its execute step is what the pipeline's call
of `_execute` does, i.e. the signature-mismatch `TypeError`. -/
def GBIF_Maps_endpoint (user password : Option String) : EndpointModel :=
  { do_authentication := true,
    authenticateResult := .ok (GBIF_authenticate user password),
    execute := fun _ _ => GBIF_Maps_execute }

/-- The condition of `gbif.py` line 191, transcribed literally:
`not user is None or not password is not None`, i.e.
`user is not None  or  password is None`.  When it holds, the
constructor prints the warning about preferring environment
variables. -/
def GBIF_warnCondition (user password : Option String) : Bool :=
  user.isSome || password.isNone

/-- Credential resolution of `gbif.py` lines 195-196: the environment
variable value is used only when the constructor argument is `None`. -/
def GBIF_resolveCredential (envValue arg : Option String) : Option String :=
  if arg.isNone then envValue else arg

/-! ### Theorems about the claims -/

/-- C3: the concrete endpoint's URL composition, applied to provider
base URL `https://api.example.org/v1`, endpoint sub-url `species`,
subendpoints `["suggest"]`, parameters `{"q": "Picea abies"}`, with
delimiters `/`, `&`, `?`, produces exactly
`https://api.example.org/v1/species/suggest?q=Picea abies` (values
inserted by plain string coercion, no percent-encoding). -/
theorem C3_url_composition :
    composeUrl "https://api.example.org/v1" "species"
      (Query.mk ["suggest"] [("q", "Picea abies")]) "/" "&" "?"
      = "https://api.example.org/v1/species/suggest?q=Picea abies" := by
  rfl

/-- C4: the concrete endpoint's `_execute` classifies an HTTP response
with status 200 as `(True, JSON-decoded body)` and any non-200 status as
`(False, raw response text)` without raising. -/
theorem C4_status_classification (providerUrl sub_url : String) (q : Query)
    (a : HTTPBasicAuth) (timeout : Option Nat) (r : Response) :
    (∀ j, r.status_code = 200 → r.jsonBody = some j →
      (GBIF_execute providerUrl sub_url q (some (.cred a)) timeout (.response r)).2
        = .ok (true, .json j))
    ∧ (r.status_code ≠ 200 →
      (GBIF_execute providerUrl sub_url q (some (.cred a)) timeout (.response r)).2
        = .ok (false, .text r.text)) := by
  constructor
  · intro j h200 hj
    simp [GBIF_execute, h200, hj]
  · intro h
    simp [GBIF_execute, h]

/-- C4 witness: status 200 with body `{"key":"value"}` yields
`(True, {"key": "value"})`; status 404 with body `not found` yields
`(False, "not found")`. -/
theorem C4_witness :
    ((200 : Nat) = 200
      ∧ (Response.mk 200 "\x7b\"key\": \"value\"\x7d"
          (some (.obj [("key", .str "value")]))).jsonBody
          = some (.obj [("key", .str "value")])
      ∧ (GBIF_execute "https://api.example.org/v1" "species"
          (Query.mk ["suggest"] [("q", "Picea abies")])
          (some (.cred (HTTPBasicAuth.mk (some "u") (some "p")))) none
          (.response (Response.mk 200 "\x7b\"key\": \"value\"\x7d"
            (some (.obj [("key", .str "value")]))))).2
        = .ok (true, .json (.obj [("key", .str "value")])))
    ∧ ((404 : Nat) ≠ 200
      ∧ (GBIF_execute "https://api.example.org/v1" "species"
          (Query.mk ["suggest"] [("q", "Picea abies")])
          (some (.cred (HTTPBasicAuth.mk (some "u") (some "p")))) none
          (.response (Response.mk 404 "not found" none))).2
        = .ok (false, .text "not found")) :=
  ⟨⟨rfl, rfl,
    (C4_status_classification "https://api.example.org/v1" "species"
      (Query.mk ["suggest"] [("q", "Picea abies")])
      (HTTPBasicAuth.mk (some "u") (some "p")) none
      (Response.mk 200 "\x7b\"key\": \"value\"\x7d"
        (some (.obj [("key", .str "value")])))).1
      (.obj [("key", .str "value")]) rfl rfl⟩,
   ⟨by decide,
    (C4_status_classification "https://api.example.org/v1" "species"
      (Query.mk ["suggest"] [("q", "Picea abies")])
      (HTTPBasicAuth.mk (some "u") (some "p")) none
      (Response.mk 404 "not found" none)).2 (by decide)⟩⟩

/-- C5: when the transport never receives a response (network failure or
timeout), `_execute` raises the transport-level exception to the caller
and never returns a `(False, payload)` tuple for that condition. -/
theorem C5_transport_fault (providerUrl sub_url : String) (q : Query)
    (a : HTTPBasicAuth) (timeout : Option Nat) (k : TransportFaultKind) :
    (GBIF_execute providerUrl sub_url q (some (.cred a)) timeout (.fault k)).2
      = .error (.transportFault k)
    ∧ ∀ p, (GBIF_execute providerUrl sub_url q (some (.cred a)) timeout (.fault k)).2
      ≠ .ok (false, p) := by
  refine ⟨rfl, ?_⟩
  intro p h
  simp [GBIF_execute] at h

/-- C5 witness: a timeout on a concrete GBIF request propagates as a
transport fault and is not the `(False, ...)` return value. -/
theorem C5_witness :
    (GBIF_execute "https://api.gbif.org/v1" "species" (Query.mk [] [])
      (some (.cred (HTTPBasicAuth.mk none none))) (some 5) (.fault .timeout)).2
      = .error (.transportFault .timeout)
    ∧ (GBIF_execute "https://api.gbif.org/v1" "species" (Query.mk [] [])
      (some (.cred (HTTPBasicAuth.mk none none))) (some 5) (.fault .timeout)).2
      ≠ .ok (false, .text "boom") :=
  ⟨(C5_transport_fault "https://api.gbif.org/v1" "species" (Query.mk [] [])
      (HTTPBasicAuth.mk none none) (some 5) .timeout).1,
   (C5_transport_fault "https://api.gbif.org/v1" "species" (Query.mk [] [])
      (HTTPBasicAuth.mk none none) (some 5) .timeout).2 (.text "boom")⟩

/-- C7: evaluation of the constructor's warning condition and credential
resolution at the failing inputs.  The literal transcription of
`gbif.py` line 191 (`not user is None or not password is not None`) is
false when only a password is supplied explicitly — no warning despite
an explicit argument — and true when neither argument is supplied; the
override semantics of lines 195-196 itself matches the claim. -/
theorem C7_warning_condition_bug :
    GBIF_warnCondition none (some "hp12rs123") = false
    ∧ GBIF_warnCondition none none = true
    ∧ GBIF_resolveCredential (some "env-user") (some "arg-user") = some "arg-user"
    ∧ GBIF_resolveCredential (some "env-user") none = some "env-user" := by
  decide

/-- C8: `provider.log` raises a `TypeError` and performs no logging side
effect when the object has no callable string conversion, and hands the
object's string to the sink when it has one. -/
theorem C8_log_type_error (what : Loggable) :
    (what.strMethod = none →
      provider_log what = ([], .error (.typeError
        "Cannot log object of this type as it does not have a str method.")))
    ∧ ∀ s, what.strMethod = some s → provider_log what = ([s], .ok s) := by
  constructor
  · intro h
    simp [provider_log, h]
  · intro s h
    simp [provider_log, h]

/-- C8 witness: a string-convertible object is passed to the sink; an
object without a callable `__str__` raises and logs nothing. -/
theorem C8_witness :
    ((Loggable.mk none).strMethod = none
      ∧ provider_log (Loggable.mk none) = ([], .error (.typeError
          "Cannot log object of this type as it does not have a str method.")))
    ∧ ((Loggable.mk (some "a result")).strMethod = some "a result"
      ∧ provider_log (Loggable.mk (some "a result")) = (["a result"], .ok "a result")) :=
  ⟨⟨rfl, (C8_log_type_error (Loggable.mk none)).1 rfl⟩,
   ⟨rfl, (C8_log_type_error (Loggable.mk (some "a result"))).2 "a result" rfl⟩⟩

/-- C1: for every endpoint whose authentication flag is enabled, if
`authenticate` returns `(False, msg)`, then `query(...)` raises the
`AuthenticationFailed` error, the provider's sink receives `str(msg)`
exactly once (and nothing after it), and `_execute` is never invoked. -/
theorem C1_auth_failure_aborts (E : EndpointModel) (q : Query) (v : AuthValue)
    (hflag : E.do_authentication = true)
    (hauth : E.authenticateResult = .ok (false, v)) :
    (queryCall E q).result = .error (.authenticationFailed v)
    ∧ (queryCall E q).sink = [v.str]
    ∧ (queryCall E q).executeCalledWith = none := by
  unfold queryCall
  rw [hflag]
  unfold execute_query
  rw [hauth]
  simp

/-- C1 witness: a concrete endpoint whose authentication fails with
message `bad credentials` aborts with the failure exception, logs the
message once, and never invokes `_execute`. -/
theorem C1_witness :
    (EndpointModel.mk true (.ok (false, .message "bad credentials"))
        (fun _ _ => ([], .error (.notImplementedError "unreachable")))).do_authentication
      = true
    ∧ (EndpointModel.mk true (.ok (false, .message "bad credentials"))
        (fun _ _ => ([], .error (.notImplementedError "unreachable")))).authenticateResult
      = .ok (false, .message "bad credentials")
    ∧ ((queryCall (EndpointModel.mk true (.ok (false, .message "bad credentials"))
          (fun _ _ => ([], .error (.notImplementedError "unreachable"))))
          (Query.mk [] [])).result
        = .error (.authenticationFailed (.message "bad credentials"))
      ∧ (queryCall (EndpointModel.mk true (.ok (false, .message "bad credentials"))
          (fun _ _ => ([], .error (.notImplementedError "unreachable"))))
          (Query.mk [] [])).sink = [AuthValue.str (.message "bad credentials")]
      ∧ (queryCall (EndpointModel.mk true (.ok (false, .message "bad credentials"))
          (fun _ _ => ([], .error (.notImplementedError "unreachable"))))
          (Query.mk [] [])).executeCalledWith = none) :=
  ⟨rfl, rfl,
   C1_auth_failure_aborts
     (EndpointModel.mk true (.ok (false, .message "bad credentials"))
       (fun _ _ => ([], .error (.notImplementedError "unreachable"))))
     (Query.mk [] []) (.message "bad credentials") rfl rfl⟩

/-- C6: for every endpoint whose authentication flag is disabled,
`query(...)` never invokes `authenticate`, and `_execute` is invoked
with no credential (`auth = None`). -/
theorem C6_no_auth_when_disabled (E : EndpointModel) (q : Query)
    (hflag : E.do_authentication = false) :
    (queryCall E q).authCalled = false
    ∧ (queryCall E q).executeCalledWith = some none := by
  unfold queryCall
  rw [hflag]
  unfold execute_query runExec
  cases h : (E.execute q none).2 <;> simp [h]

/-- C6 witness: a concrete endpoint with the flag disabled runs
`_execute` with `None` and never calls `authenticate`. -/
theorem C6_witness :
    (EndpointModel.mk false (.error (.notImplementedError
        "Authentication is not implemented for this endpoint, and should not be called."))
        (fun _ _ => ([], .ok (true, .text "ok")))).do_authentication = false
    ∧ ((queryCall (EndpointModel.mk false (.error (.notImplementedError
          "Authentication is not implemented for this endpoint, and should not be called."))
          (fun _ _ => ([], .ok (true, .text "ok")))) (Query.mk [] [])).authCalled = false
      ∧ (queryCall (EndpointModel.mk false (.error (.notImplementedError
          "Authentication is not implemented for this endpoint, and should not be called."))
          (fun _ _ => ([], .ok (true, .text "ok")))) (Query.mk [] [])).executeCalledWith
        = some none) :=
  ⟨rfl,
   C6_no_auth_when_disabled
     (EndpointModel.mk false (.error (.notImplementedError
       "Authentication is not implemented for this endpoint, and should not be called."))
       (fun _ _ => ([], .ok (true, .text "ok")))) (Query.mk [] []) rfl⟩

/-- C9: evaluation of the Maps query pipeline at the failing input.  The
constructed Maps endpoint's pipeline run ends in the signature-mismatch
`TypeError` of the `self._execute(query, auth, **kwargs)` call site, not
in the `NotImplementedError("Maps is not implemented yet.")` that the
method body (and the claim) intends — that body is unreachable through
the pipeline — and in particular never in a `(success, payload)`
return. -/
theorem C9_maps_pipeline_type_error :
    (queryCall (GBIF_Maps_endpoint (some "u") (some "p")) (Query.mk [] [])).result
      = .error (.typeError
          "_execute() takes 1 positional argument but 3 were given")
    ∧ (queryCall (GBIF_Maps_endpoint (some "u") (some "p")) (Query.mk [] [])).result
      ≠ .error (.notImplementedError "Maps is not implemented yet.")
    ∧ (queryCall (GBIF_Maps_endpoint (some "u") (some "p")) (Query.mk [] [])).result
      ≠ .ok (true, .text "tile") := by
  refine ⟨rfl, ?_, ?_⟩ <;> intro h <;>
    simp [queryCall, execute_query, GBIF_Maps_endpoint, GBIF_authenticate,
      runExec, GBIF_Maps_execute] at h

/-- C10: for every credential state (including absent user/password),
`GBIF_API_V1.authenticate` returns `(True, HTTPBasicAuth(user,
password))` and never a failure, so the authentication-failure branch of
the query pipeline is unreachable for any GBIF endpoint. -/
theorem C10_gbif_auth_always_succeeds (user password : Option String)
    (providerUrl sub_url : String) (seps : List String)
    (params : List (String × String)) (timeout : Option Nat)
    (transport : TransportOutcome) :
    GBIF_authenticate user password
      = (true, .cred (HTTPBasicAuth.mk user password))
    ∧ ∀ v, (GBIF_query user password providerUrl sub_url seps params timeout
        transport).result ≠ .error (.authenticationFailed v) := by
  refine ⟨rfl, ?_⟩
  intro v h
  cases transport with
  | fault k =>
    simp [GBIF_query, queryCall, execute_query, GBIF_endpoint, GBIF_authenticate,
      runExec, GBIF_execute] at h
  | response r =>
    by_cases h200 : r.status_code = 200
    · cases hj : r.jsonBody with
      | none =>
        simp [GBIF_query, queryCall, execute_query, GBIF_endpoint, GBIF_authenticate,
          runExec, GBIF_execute, h200, hj] at h
      | some j =>
        simp [GBIF_query, queryCall, execute_query, GBIF_endpoint, GBIF_authenticate,
          runExec, GBIF_execute, h200, hj] at h
    · simp [GBIF_query, queryCall, execute_query, GBIF_endpoint, GBIF_authenticate,
        runExec, GBIF_execute, h200] at h

/-- C10 witness: with both credentials absent, authentication still
succeeds and a concrete query never ends in the authentication-failure
exception. -/
theorem C10_witness :
    GBIF_authenticate none none = (true, .cred (HTTPBasicAuth.mk none none))
    ∧ (GBIF_query none none "https://api.gbif.org/v1" "species" ["suggest"]
        [("q", "Picea abies")] none
        (.response (Response.mk 404 "not found" none))).result
      ≠ .error (.authenticationFailed (.message "denied")) :=
  ⟨(C10_gbif_auth_always_succeeds none none "https://api.gbif.org/v1" "species"
      ["suggest"] [("q", "Picea abies")] none
      (.response (Response.mk 404 "not found" none))).1,
   (C10_gbif_auth_always_succeeds none none "https://api.gbif.org/v1" "species"
      ["suggest"] [("q", "Picea abies")] none
      (.response (Response.mk 404 "not found" none))).2 (.message "denied")⟩

/-- C2 counterexample: a concrete successful GBIF `query(...)` call
hands four strings to the provider's sink — the authentication value,
the query, the `Querying <url>` line written directly by `_execute`, and
the result — not exactly two. -/
theorem C2_counterexample :
    (GBIF_query (some "user") (some "pw") "https://api.example.org/v1" "species"
        ["suggest"] [("q", "Picea abies")] none
        (.response (Response.mk 200 "\x7b\"key\": \"value\"\x7d"
          (some (.obj [("key", .str "value")]))))).result
      = .ok (true, .json (.obj [("key", .str "value")]))
    ∧ (GBIF_query (some "user") (some "pw") "https://api.example.org/v1" "species"
        ["suggest"] [("q", "Picea abies")] none
        (.response (Response.mk 200 "\x7b\"key\": \"value\"\x7d"
          (some (.obj [("key", .str "value")]))))).sink.length = 4
    ∧ (GBIF_query (some "user") (some "pw") "https://api.example.org/v1" "species"
        ["suggest"] [("q", "Picea abies")] none
        (.response (Response.mk 200 "\x7b\"key\": \"value\"\x7d"
          (some (.obj [("key", .str "value")]))))).sink.length ≠ 2 :=
  ⟨rfl, rfl, by decide⟩

/-- C2 amended: every successful call on a GBIF endpoint hands exactly
four entries to the sink, in order: the string of the authentication
value, the string representation of the constructed Query, the
`Querying <url>` line that `_execute` writes directly to the sink, and
the string representation of the result — so the Query's representation
still precedes the result's, but the total is four entries, not two. -/
theorem C2_successful_call_logs (user password : Option String)
    (providerUrl sub_url : String) (seps : List String)
    (params : List (String × String)) (timeout : Option Nat)
    (transport : TransportOutcome) (b : Bool) (p : Payload)
    (h : (GBIF_query user password providerUrl sub_url seps params timeout
        transport).result = .ok (b, p)) :
    (GBIF_query user password providerUrl sub_url seps params timeout
        transport).sink
      = [AuthValue.str (.cred (HTTPBasicAuth.mk user password)),
         Query.str (GBIF_construct_query seps params),
         "Querying " ++ composeUrl providerUrl sub_url
           (GBIF_construct_query seps params) "/" "&" "?",
         resultStr b p] := by
  cases transport with
  | fault k =>
    exfalso
    simp [GBIF_query, queryCall, execute_query, GBIF_endpoint, GBIF_authenticate,
      runExec, GBIF_execute] at h
  | response r =>
    by_cases h200 : r.status_code = 200
    · cases hj : r.jsonBody with
      | none =>
        exfalso
        simp [GBIF_query, queryCall, execute_query, GBIF_endpoint, GBIF_authenticate,
          runExec, GBIF_execute, h200, hj] at h
      | some j =>
        simp [GBIF_query, queryCall, execute_query, GBIF_endpoint, GBIF_authenticate,
          runExec, GBIF_execute, h200, hj] at h ⊢
        obtain ⟨hb, hp⟩ := h
        subst hb
        subst hp
        simp
    · simp [GBIF_query, queryCall, execute_query, GBIF_endpoint, GBIF_authenticate,
        runExec, GBIF_execute, h200] at h ⊢
      obtain ⟨hb, hp⟩ := h
      subst hb
      subst hp
      simp

/-- C2 witness for the amended theorem: the concrete successful call of
the counterexample produces exactly the four entries, in order. -/
theorem C2_witness :
    (GBIF_query (some "user") (some "pw") "https://api.example.org/v1" "species"
        ["suggest"] [("q", "Picea abies")] none
        (.response (Response.mk 200 "\x7b\"key\": \"value\"\x7d"
          (some (.obj [("key", .str "value")]))))).result
      = .ok (true, .json (.obj [("key", .str "value")]))
    ∧ (GBIF_query (some "user") (some "pw") "https://api.example.org/v1" "species"
        ["suggest"] [("q", "Picea abies")] none
        (.response (Response.mk 200 "\x7b\"key\": \"value\"\x7d"
          (some (.obj [("key", .str "value")]))))).sink
      = [AuthValue.str (.cred (HTTPBasicAuth.mk (some "user") (some "pw"))),
         Query.str (GBIF_construct_query ["suggest"] [("q", "Picea abies")]),
         "Querying " ++ composeUrl "https://api.example.org/v1" "species"
           (GBIF_construct_query ["suggest"] [("q", "Picea abies")]) "/" "&" "?",
         resultStr true (.json (.obj [("key", .str "value")]))] :=
  ⟨rfl,
   C2_successful_call_logs (some "user") (some "pw") "https://api.example.org/v1"
     "species" ["suggest"] [("q", "Picea abies")] none
     (.response (Response.mk 200 "\x7b\"key\": \"value\"\x7d"
       (some (.obj [("key", .str "value")]))))
     true (.json (.obj [("key", .str "value")])) rfl⟩

end DatasetConstruction
